import Mathlib

/-!
Shallow embedding of the go-teamcity client library fragments under
verification: the property/parameter model, the REST helper's
status-code branching, the Locator formatting, the Project service
(Create / Get / Update / updateProject), the Slack-connection project
feature, and the Golang build feature JSON round-trip.

HTTP is modelled by passing each call the `HttpResponse` the server
would return for it, plus explicit decoder functions standing for
`encoding/json` decoding; the sequence of write requests a service
method issues is returned as an explicit trace, and mutation of a Go
pointer argument is modelled by returning the updated value.
-/

/-- A property of the TeamCity property model: `Property` in Go, with
`Name`, `Value` and the optional `Inherited *bool` flag. -/
structure Property where
  name : String
  value : String
  inherited : Option Bool
deriving DecidableEq, Repr

/-- Modelled from the spec: the "ordered key-value collections" of the
property/parameter model (`Properties` in Go: a `Count` field plus the
ordered `Items` slice); the defining Go file is not part of the sources,
only its callers are. -/
structure Properties where
  count : Nat
  items : List Property
deriving DecidableEq, Repr

/-- `NewProperty` constructs a property with no inherited flag. -/
def NewProperty (name value : String) : Property :=
  { name := name, value := value, inherited := none }

/-- Modelled from the spec: `NewProperties(items...)` collects the given
items and sets the count to their number. -/
def NewProperties (items : List Property) : Properties :=
  { count := items.length, items := items }

/-- Modelled from the spec: `Properties.Map()` builds a `map[string]string`
by inserting every item in order, so on duplicate names the last item
wins; modelled as a lookup function. -/
def Properties.Map (ps : Properties) (key : String) : Option String :=
  ((ps.items.filter (fun i => i.name = key)).map (fun i => i.value)).getLast?

/-- Modelled from the spec: `Properties.GetOk(key)` scans the items in
order and returns the first value with the given name, with an ok flag;
modelled as an `Option`. -/
def Properties.GetOk (ps : Properties) (key : String) : Option String :=
  (ps.items.find? (fun i => i.name = key)).map (fun i => i.value)

/-- Modelled from the spec: `Properties.AddOrReplaceValue(n, v)` replaces
the value of the first item named `n` when one exists, and otherwise
appends a new item and increments the count. -/
def Properties.AddOrReplaceValue (ps : Properties) (n v : String) : Properties :=
  if ps.items.any (fun i => i.name = n) then
    { ps with items := ps.items.replaceF (fun i =>
        if i.name = n then some { i with value := v } else none) }
  else
    { count := ps.count + 1, items := ps.items ++ [NewProperty n v] }

/-- Parameters of a project are carried by the same collection type as
properties (`Parameters` in Go shares the `Count`/`Items` shape). -/
def Parameters : Type := Properties

instance : DecidableEq Parameters := fun a b =>
  (inferInstance : DecidableEq Properties) a b

/-- `NewParametersEmpty()` returns an empty parameter collection. -/
def NewParametersEmpty : Parameters := ({ count := 0, items := [] } : Properties)

def Parameters.count (p : Parameters) : Nat := Properties.count p

def Parameters.items (p : Parameters) : List Property := Properties.items p

/-- Modelled from the spec: `Parameters.NonInherited()` strips inherited
parameters, keeping exactly the items whose inherited flag is not set to
true, and recomputes the count. -/
def Parameters.NonInherited (p : Parameters) : Parameters :=
  let kept := (Parameters.items p).filter (fun i => i.inherited ≠ some true)
  ({ count := kept.length, items := kept } : Properties)

/-- `ProjectReference` from project.go: the reference shape returned for
relationships and by creation responses. -/
structure ProjectReference where
  id : String
  name : String
  description : String
  href : String
  webURL : String
deriving DecidableEq, Repr

/-- `BuildTypeReference` shape (only carried along; no claim is about it). -/
structure BuildTypeReference where
  id : String
  name : String
  projectID : String
deriving DecidableEq, Repr

/-- `Project` from project.go. `Parameters` is a pointer in Go and always
set by the constructor; it is modelled as a plain field. -/
structure Project where
  archived : Option Bool
  description : String
  href : String
  id : String
  name : String
  parameters : Parameters
  parentProject : Option ProjectReference
  parentProjectID : String
  webURL : String
  buildTypes : List BuildTypeReference
  uuid : String
deriving DecidableEq

/-- An all-empty project value, standing for Go's zero value `Project{}`. -/
def emptyProject : Project :=
  { archived := none, description := "", href := "", id := "", name := ""
  , parameters := NewParametersEmpty, parentProject := none
  , parentProjectID := "", webURL := "", buildTypes := [], uuid := "" }

/-- An all-empty project reference, Go's zero value `ProjectReference{}`. -/
def emptyProjectReference : ProjectReference :=
  { id := "", name := "", description := "", href := "", webURL := "" }

/-- `NewProject(name, description, parentProjectID)` from project.go:
errors exactly on an empty name, otherwise builds a project with an
empty parameter collection and, when a parent id is given, a parent
reference holding just that id. -/
def NewProject (name description parentProjectID : String) : Except String Project :=
  if name = "" then
    .error "name is required"
  else
    let parent : Option ProjectReference :=
      if parentProjectID = "" then none
      else some { emptyProjectReference with id := parentProjectID }
    .ok { emptyProject with
            name := name
          , description := description
          , parentProject := parent
          , parentProjectID := parentProjectID
          , parameters := NewParametersEmpty }

/-- An HTTP response as the rest helper sees it: status code and raw body. -/
structure HttpResponse where
  statusCode : Nat
  body : String
deriving DecidableEq, Repr

/-- The error synthesized by `restHelper.handleRestError`: it carries the
status code, the HTTP verb, the resource description and the raw body. -/
structure RestError where
  status : Nat
  op : String
  resource : String
  body : String
deriving DecidableEq, Repr

/-- The failure cases of a rest helper call on a received response:
a JSON decode failure or a synthesized REST error. -/
inductive RestFailure where
  | decodeError : RestFailure
  | restError : RestError → RestFailure
deriving DecidableEq, Repr

namespace restHelper

/-- `handleRestError(dt, status, op, res)` synthesizes the error value. -/
def handleRestError (dt : String) (status : Nat) (op res : String) : RestError :=
  { status := status, op := op, resource := res, body := dt }

/-- The message format of `handleRestError` (`fmt.Errorf`). -/
def RestError.message (e : RestError) : String :=
  "Error " ++ toString e.status ++ " when performing " ++ e.op ++
    " operation - " ++ e.resource ++ ": " ++ e.body

/-- `restHelper.getWithFields`: decode the body on status 200, otherwise
synthesize a GET error from status and body. -/
def getWithFields {α : Type} (resp : HttpResponse) (decode : String → Option α)
    (resourceDescription : String) : Except RestFailure α :=
  if resp.statusCode = 200 then
    match decode resp.body with
    | some v => .ok v
    | none => .error .decodeError
  else
    .error (.restError (handleRestError resp.body resp.statusCode "GET" resourceDescription))

/-- `restHelper.get` delegates to `getWithFields` with empty fields. -/
def get {α : Type} (resp : HttpResponse) (decode : String → Option α)
    (resourceDescription : String) : Except RestFailure α :=
  getWithFields resp decode resourceDescription

/-- `restHelper.post`: decode the body on status 201 or 200, otherwise
synthesize a POST error. -/
def post {α : Type} (resp : HttpResponse) (decode : String → Option α)
    (resourceDescription : String) : Except RestFailure α :=
  if resp.statusCode = 201 ∨ resp.statusCode = 200 then
    match decode resp.body with
    | some v => .ok v
    | none => .error .decodeError
  else
    .error (.restError (handleRestError resp.body resp.statusCode "POST" resourceDescription))

/-- `restHelper.put`: decode the body on status 201 or 200, otherwise
synthesize a PUT error. -/
def put {α : Type} (resp : HttpResponse) (decode : String → Option α)
    (resourceDescription : String) : Except RestFailure α :=
  if resp.statusCode = 201 ∨ resp.statusCode = 200 then
    match decode resp.body with
    | some v => .ok v
    | none => .error .decodeError
  else
    .error (.restError (handleRestError resp.body resp.statusCode "PUT" resourceDescription))

/-- `restHelper.putTextPlain`: on status 201 or 200 return the raw body
string, otherwise synthesize a PUT error. `data` is the request payload
and does not influence the response handling. -/
def putTextPlain (resp : HttpResponse) (data : String)
    (resourceDescription : String) : Except RestFailure String :=
  if resp.statusCode = 201 ∨ resp.statusCode = 200 then
    .ok resp.body
  else
    .error (.restError (handleRestError resp.body resp.statusCode "PUT" resourceDescription))

/-- `restHelper.deleteByIDWithSling`: status 204 succeeds immediately;
then any status other than 200 and 204 synthesizes a DELETE error;
what remains (status 200) succeeds. -/
def deleteByIDWithSling (resp : HttpResponse)
    (resourceDescription : String) : Except RestFailure Unit :=
  if resp.statusCode = 204 then
    .ok ()
  else if resp.statusCode ≠ 200 ∧ resp.statusCode ≠ 204 then
    .error (.restError (handleRestError resp.body resp.statusCode "DELETE" resourceDescription))
  else
    .ok ()

/-- `restHelper.delete` delegates to `deleteByIDWithSling`. -/
def deleteByID (resp : HttpResponse) (resourceDescription : String) :
    Except RestFailure Unit :=
  deleteByIDWithSling resp resourceDescription

end restHelper

/-- The decoder functions a project-service call threads into the rest
helper, standing for `encoding/json` decoding of response bodies. -/
structure Decoders where
  project : String → Option Project
  ref : String → Option ProjectReference
  params : String → Option Parameters

/-- `ProjectService.Get(locator)`: a `getWithFields` for a project,
followed by stripping inherited parameters from the result. -/
def ProjectService.Get (resp : HttpResponse) (decodeProject : String → Option Project) :
    Except RestFailure Project :=
  match restHelper.getWithFields resp decodeProject "project" with
  | .error e => .error e
  | .ok out => .ok { out with parameters := out.parameters.NonInherited }

/-- One write request issued by the project service, identified by its
target and payload; the trace of a run is the list of these in order. -/
inductive HttpWrite where
  | postProject : HttpWrite
  | putName : String → HttpWrite
  | putDescription : String → HttpWrite
  | putID : String → HttpWrite
  | putParentProject : Option ProjectReference → HttpWrite
  | putParameters : Parameters → HttpWrite
deriving DecidableEq

/-- The responses the server returns to each call `updateProject` can
make, in program order: the initial Get, the three text-plain field
PUTs, the parent-project PUT, the parameters PUT, the final Get. -/
structure UpdateEnv where
  getCurrentResp : HttpResponse
  nameResp : HttpResponse
  descriptionResp : HttpResponse
  idResp : HttpResponse
  parentResp : HttpResponse
  parametersResp : HttpResponse
  getFinalResp : HttpResponse

/-- `ProjectService.updateStringField`: a text-plain PUT of one field,
returning only the error. -/
def ProjectService.updateStringField (resp : HttpResponse) (value fieldDescription : String) :
    Except RestFailure Unit :=
  match restHelper.putTextPlain resp value fieldDescription with
  | .error e => .error e
  | .ok _ => .ok ()

/-- Final block of `updateProject`: the refreshing Get after the writes. -/
def ProjectService.finalStage (env : UpdateEnv) (dec : Decoders)
    (writes : List HttpWrite) : List HttpWrite × Except RestFailure (Option Project) :=
  match ProjectService.Get env.getFinalResp dec.project with
  | .error e => (writes, .error e)
  | .ok out => (writes, .ok (some out))

/-- Parameters block of `updateProject`: a PUT of the whole parameter
collection whenever the desired collection is non-empty, not conditioned
on the current server state. -/
def ProjectService.paramsStage (env : UpdateEnv) (dec : Decoders) (project : Project)
    (writes : List HttpWrite) : List HttpWrite × Except RestFailure (Option Project) :=
  if project.parameters.count > 0 then
    let writes := writes ++ [HttpWrite.putParameters project.parameters]
    match restHelper.put env.parametersResp dec.params "project parameters" with
    | .error e => (writes, .error e)
    | .ok _ => ProjectService.finalStage env dec writes
  else
    ProjectService.finalStage env dec writes

/-- Parent block of `updateProject`: skipped on create; otherwise a PUT
of the parent reference only when a parent is desired and the current
parent id differs; on failure of that PUT the function returns
`(nil, nil)` — no project and no error. -/
def ProjectService.parentStage (env : UpdateEnv) (dec : Decoders) (project : Project)
    (isCreate : Bool) (current : Project) (writes : List HttpWrite) :
    List HttpWrite × Except RestFailure (Option Project) :=
  if ¬ isCreate ∧
      ((project.parentProjectID ≠ "" ∨ project.parentProject ≠ none) ∧
        current.parentProjectID ≠ project.parentProjectID) then
    let writes := writes ++ [HttpWrite.putParentProject project.parentProject]
    match restHelper.put env.parentResp dec.ref "parent project" with
    | .error _ => (writes, .ok none)
    | .ok _ => ProjectService.paramsStage env dec project writes
  else
    ProjectService.paramsStage env dec project writes

/-- Id block of `updateProject`: text-plain PUT of the id when changed. -/
def ProjectService.idStage (env : UpdateEnv) (dec : Decoders) (project : Project)
    (isCreate : Bool) (current : Project) (writes : List HttpWrite) :
    List HttpWrite × Except RestFailure (Option Project) :=
  if current.id ≠ project.id then
    let writes := writes ++ [HttpWrite.putID project.id]
    match ProjectService.updateStringField env.idResp project.id "project id" with
    | .error e => (writes, .error e)
    | .ok _ => ProjectService.parentStage env dec project isCreate current writes
  else
    ProjectService.parentStage env dec project isCreate current writes

/-- Description block of `updateProject`. -/
def ProjectService.descriptionStage (env : UpdateEnv) (dec : Decoders) (project : Project)
    (isCreate : Bool) (current : Project) (writes : List HttpWrite) :
    List HttpWrite × Except RestFailure (Option Project) :=
  if current.description ≠ project.description then
    let writes := writes ++ [HttpWrite.putDescription project.description]
    match ProjectService.updateStringField env.descriptionResp project.description
        "project description" with
    | .error e => (writes, .error e)
    | .ok _ => ProjectService.idStage env dec project isCreate current writes
  else
    ProjectService.idStage env dec project isCreate current writes

/-- Name block of `updateProject`. -/
def ProjectService.nameStage (env : UpdateEnv) (dec : Decoders) (project : Project)
    (isCreate : Bool) (current : Project) (writes : List HttpWrite) :
    List HttpWrite × Except RestFailure (Option Project) :=
  if current.name ≠ project.name then
    let writes := writes ++ [HttpWrite.putName project.name]
    match ProjectService.updateStringField env.nameResp project.name "project name" with
    | .error e => (writes, .error e)
    | .ok _ => ProjectService.descriptionStage env dec project isCreate current writes
  else
    ProjectService.descriptionStage env dec project isCreate current writes

/-- `ProjectService.updateProject(locator, project, isCreate)` from
project.go, as the sequence of its blocks: initial Get, conditional
field PUTs, conditional parent PUT, parameters PUT, refreshing Get.
Returns the trace of writes issued and the Go pair `(*Project, error)`,
with `.ok none` standing for the `(nil, nil)` return. -/
def ProjectService.updateProject (env : UpdateEnv) (dec : Decoders)
    (project : Project) (isCreate : Bool) :
    List HttpWrite × Except RestFailure (Option Project) :=
  match ProjectService.Get env.getCurrentResp dec.project with
  | .error e => ([], .error e)
  | .ok current => ProjectService.nameStage env dec project isCreate current []

/-- `ProjectService.Update(project)` delegates to `updateProject` with
`isCreate = false`. -/
def ProjectService.Update (env : UpdateEnv) (dec : Decoders) (project : Project) :
    List HttpWrite × Except RestFailure (Option Project) :=
  ProjectService.updateProject env dec project false

/-- The responses for a `Create` run: the creation POST response plus
the responses for the follow-up `updateProject`. -/
structure CreateEnv where
  postResp : HttpResponse
  update : UpdateEnv

/-- `ProjectService.Create(project)` from project.go: POST the project;
on success overwrite the caller's `project.ID` with the created id and
run `updateProject` with `isCreate = true`. The first component is the
caller's project value after the call, modelling the in-place mutation
of the pointer argument. -/
def ProjectService.Create (env : CreateEnv) (dec : Decoders) (project : Project) :
    Project × List HttpWrite × Except RestFailure (Option Project) :=
  match restHelper.post env.postResp dec.project "project" with
  | .error e => (project, [HttpWrite.postProject], .error e)
  | .ok created =>
      let project := { project with id := created.id }
      let res := ProjectService.updateProject env.update dec project true
      (project, HttpWrite.postProject :: res.1, res.2)

/-- Modelled from the spec: the `Locator` value type (its defining Go
file is not part of the sources; only callers such as `LocatorID`,
`LocatorName`, `LocatorUUID` appear). A locator wraps the formatted
path segment. -/
structure Locator where
  segment : String
deriving DecidableEq, Repr

/-- Modelled from the spec: `Locator.String()` returns the segment. -/
def Locator.String (l : Locator) : String := l.segment

/-- Modelled from the spec: `LocatorID(id)` formats `id:<value>`. -/
def LocatorID (id : String) : Locator := ⟨"id:" ++ id⟩

/-- Modelled from the spec: the numeric-ID locator formats `id:<value>`
with the integer rendered in decimal. -/
def LocatorIDInt (id : Int) : Locator := ⟨"id:" ++ toString id⟩

/-- Modelled from the spec: `LocatorName(name)` formats `name:<value>`. -/
def LocatorName (name : String) : Locator := ⟨"name:" ++ name⟩

/-- Modelled from the spec: `LocatorUUID(uuid)` formats `uuid:<value>`. -/
def LocatorUUID (uuid : String) : Locator := ⟨"uuid:" ++ uuid⟩

/-- `ProjectFeatureSlackConnectionOptions` from
project_feature_slack_connection.go. -/
structure ProjectFeatureSlackConnectionOptions where
  clientId : String
  clientSecret : String
  displayName : String
  providerType : String
  token : String
deriving DecidableEq, Repr

/-- `ProjectFeatureSlackConnection` from
project_feature_slack_connection.go. -/
structure ProjectFeatureSlackConnection where
  id : String
  projectID : String
  options : ProjectFeatureSlackConnectionOptions
deriving DecidableEq, Repr

/-- `NewProjectFeatureSlackConnection(projectID, options)`. -/
def NewProjectFeatureSlackConnection (projectID : String)
    (options : ProjectFeatureSlackConnectionOptions) : ProjectFeatureSlackConnection :=
  { id := "", projectID := projectID, options := options }

/-- `ProjectFeatureSlackConnection.Properties()`: the serialized property
collection, listing clientId, secure:clientSecret, displayName, the
fixed providerType and secure:token, in source order. -/
def ProjectFeatureSlackConnection.Properties (f : ProjectFeatureSlackConnection) :
    Properties :=
  NewProperties
    [ NewProperty "clientId" f.options.clientId
    , NewProperty "secure:clientSecret" f.options.clientSecret
    , NewProperty "displayName" f.options.displayName
    , NewProperty "providerType" "slackConnection"
    , NewProperty "secure:token" f.options.token ]

/-- The `projectFeatureJSON` response shape a feature is loaded from:
its id and its property collection. -/
structure projectFeatureJSON where
  id : String
  properties : Properties
deriving DecidableEq, Repr

/-- `loadProjectFeatureSlackConnection(projectID, feature)`: builds the
feature from a server response, reading only clientId, displayName and
providerType from the response properties; the secure options are left
at their zero value (the empty string). -/
def loadProjectFeatureSlackConnection (projectID : String)
    (feature : projectFeatureJSON) : ProjectFeatureSlackConnection :=
  { id := feature.id
  , projectID := projectID
  , options :=
      { clientId := (feature.properties.GetOk "clientId").getD ""
      , clientSecret := ""
      , displayName := (feature.properties.GetOk "displayName").getD ""
      , providerType := (feature.properties.GetOk "providerType").getD ""
      , token := "" } }

/-- The `buildFeatureJSON` serialization shape used by build features:
id, optional disabled and inherited flags, the keyed type and the
property collection. -/
structure buildFeatureJSON where
  id : String
  disabled : Option Bool
  inherited : Option Bool
  keyedType : String
  properties : Properties
deriving DecidableEq, Repr

/-- `FeatureGolang` from the golang build feature file. -/
structure FeatureGolang where
  id : String
  disabled : Bool
  buildTypeID : String
  properties : Properties
deriving DecidableEq, Repr

/-- `NewFeatureGolang()`: a feature with an empty property collection. -/
def NewFeatureGolang : FeatureGolang :=
  { id := "", disabled := false, buildTypeID := "", properties := NewProperties [] }

/-- `FeatureGolang.Type()` returns the keyed type "golang". -/
def FeatureGolang.keyedType (_ : FeatureGolang) : String := "golang"

/-- `FeatureGolang.MarshalJSON()`: builds the serialization shape sharing
the receiver's property collection, then forces the property
`test.format = "json"` on that shared collection, so both the output and
the receiver's own properties carry it. The first component is the
receiver's value after the call, modelling the in-place mutation through
the shared pointer. -/
def FeatureGolang.MarshalJSON (f : FeatureGolang) : FeatureGolang × buildFeatureJSON :=
  let props := f.properties.AddOrReplaceValue "test.format" "json"
  ( { f with properties := props }
  , { id := f.id, disabled := some f.disabled, inherited := some false
    , keyedType := f.keyedType, properties := props } )

/-- `FeatureGolang.UnmarshalJSON(data)` after a successful decode of the
`buildFeatureJSON` shape: sets id, treats an absent disabled flag as
false, and rebuilds the property collection from the decoded items;
`buildTypeID` is left as it was on the receiver. -/
def FeatureGolang.UnmarshalJSON (f : FeatureGolang) (aux : buildFeatureJSON) :
    FeatureGolang :=
  { f with id := aux.id
         , disabled := aux.disabled.getD false
         , properties := NewProperties aux.properties.items }

/-- Helper: `GetOk` after `AddOrReplaceValue` at the same key yields the
new value. -/
theorem getOk_replaceF_of_any (l : List Property) (n v : String)
    (h : l.any (fun i => i.name = n) = true) :
    ((l.replaceF (fun i =>
        if i.name = n then some { i with value := v } else none)).find?
      (fun i => i.name = n)).map (fun i => i.value) = some v := by
  induction l with
  | nil => simp at h
  | cons a t ih =>
    by_cases ha : a.name = n
    · simp [List.replaceF_cons, ha, List.find?]
    · simp only [List.replaceF_cons, if_neg ha]
      rw [List.find?_cons_of_neg _ (by simpa using ha)]
      simp only [List.any_cons, Bool.or_eq_true, decide_eq_true_eq] at h
      rcases h with h | h
      · exact absurd h ha
      · exact ih h

/-- Helper: `AddOrReplaceValue` forces the value seen by `GetOk`. -/
theorem Properties.GetOk_AddOrReplaceValue (ps : Properties) (n v : String) :
    (ps.AddOrReplaceValue n v).GetOk n = some v := by
  unfold Properties.AddOrReplaceValue Properties.GetOk
  by_cases h : ps.items.any (fun i => i.name = n) = true
  · rw [if_pos h]
    exact getOk_replaceF_of_any ps.items n v h
  · rw [if_neg h]
    have hfind : ps.items.find? (fun i => decide (i.name = n)) = none := by
      rw [List.find?_eq_none]
      intro x hx
      by_contra hxn
      exact h (List.any_eq_true.mpr ⟨x, hx, by simpa using hxn⟩)
    simp only [List.find?_append, hfind, Option.none_or]
    simp [List.find?, NewProperty]

/-- C8: Locator formatting is deterministic and pure: for every
identifying field value (numeric ID, string ID, name, UUID) the
constructor followed by `String()` yields the expected path segment
`id:<value>` / `name:<value>` / `uuid:<value>`, with no validation
beyond presence (the empty value is formatted like any other). -/
theorem C8_locator_formatting_pure (v : String) (n : Int) :
    (LocatorID v).String = "id:" ++ v
    ∧ (LocatorIDInt n).String = "id:" ++ toString n
    ∧ (LocatorName v).String = "name:" ++ v
    ∧ (LocatorUUID v).String = "uuid:" ++ v
    ∧ (LocatorID "").String = "id:" :=
  ⟨rfl, rfl, rfl, rfl, rfl⟩

/-- Concrete options used to refute the claim that the Slack connection
property map never contains the secure values. -/
def slackOptsC4 : ProjectFeatureSlackConnectionOptions :=
  { clientId := "abcd.1234", clientSecret := "xyz", displayName := "Notifier"
  , providerType := "", token := "ABCD1234EFG" }

/-- C4 counterexample: for the supplied options the property map produced
by `Properties()` does contain the secure values, mapping
secure:clientSecret to "xyz" and secure:token to "ABCD1234EFG". -/
theorem C4_counterexample :
    (NewProjectFeatureSlackConnection "project1" slackOptsC4).Properties.Map
        "secure:clientSecret" = some "xyz"
    ∧ (NewProjectFeatureSlackConnection "project1" slackOptsC4).Properties.Map
        "secure:token" = some "ABCD1234EFG" := by
  constructor <;> rfl

/-- C4 (amended): `Properties()` of a Slack connection feature maps
clientId and displayName to the supplied options and providerType to
"slackConnection", and it also maps secure:clientSecret and secure:token
to the supplied secure options; a feature built by
`loadProjectFeatureSlackConnection` from a server response has empty
secure options (the loader never reads them), so only for loaded
features are the secure property values empty. -/
theorem C4_slack_connection_properties (pid : String)
    (opts : ProjectFeatureSlackConnectionOptions) (feature : projectFeatureJSON) :
    ((NewProjectFeatureSlackConnection pid opts).Properties.Map "clientId"
        = some opts.clientId)
    ∧ ((NewProjectFeatureSlackConnection pid opts).Properties.Map "displayName"
        = some opts.displayName)
    ∧ ((NewProjectFeatureSlackConnection pid opts).Properties.Map "providerType"
        = some "slackConnection")
    ∧ ((NewProjectFeatureSlackConnection pid opts).Properties.Map "secure:clientSecret"
        = some opts.clientSecret)
    ∧ ((NewProjectFeatureSlackConnection pid opts).Properties.Map "secure:token"
        = some opts.token)
    ∧ ((loadProjectFeatureSlackConnection pid feature).options.clientSecret = "")
    ∧ ((loadProjectFeatureSlackConnection pid feature).options.token = "")
    ∧ ((loadProjectFeatureSlackConnection pid feature).Properties.Map
        "secure:clientSecret" = some "")
    ∧ ((loadProjectFeatureSlackConnection pid feature).Properties.Map
        "secure:token" = some "") :=
  ⟨rfl, rfl, rfl, rfl, rfl, rfl, rfl, rfl, rfl⟩

/-- C10: `FeatureGolang.MarshalJSON` always forces the property
test.format = "json" into the serialized property collection, and -
because the serialization shares the receiver's property collection -
the receiver's own properties gain or have replaced that entry;
`UnmarshalJSON` treats an absent disabled field as false. -/
theorem C10_feature_golang_marshal_forces_test_format
    (f : FeatureGolang) (aux : buildFeatureJSON) :
    (f.MarshalJSON.2.properties.GetOk "test.format" = some "json")
    ∧ (f.MarshalJSON.1.properties = f.MarshalJSON.2.properties)
    ∧ (f.MarshalJSON.1.properties
        = f.properties.AddOrReplaceValue "test.format" "json")
    ∧ ((f.UnmarshalJSON { aux with disabled := none }).disabled = false) := by
  refine ⟨?_, rfl, rfl, rfl⟩
  exact Properties.GetOk_AddOrReplaceValue f.properties "test.format" "json"

/-- C6: a successful `ProjectService.Get` returns the decoded project
with its parameters replaced by the non-inherited subset, and no item of
the returned parameter collection has the inherited flag set. -/
theorem C6_get_strips_inherited_parameters (resp : HttpResponse)
    (dec : String → Option Project) (out : Project)
    (h200 : resp.statusCode = 200) (hdec : dec resp.body = some out) :
    ProjectService.Get resp dec
        = .ok { out with parameters := out.parameters.NonInherited }
    ∧ ∀ i ∈ Parameters.items out.parameters.NonInherited, i.inherited ≠ some true := by
  constructor
  · simp [ProjectService.Get, restHelper.getWithFields, h200, hdec]
  · intro i hi
    unfold Parameters.NonInherited at hi
    simp only [Parameters.items] at hi
    simp only [List.mem_filter, decide_eq_true_eq] at hi
    simpa using hi.2

/-- A project response value with one inherited and one own parameter,
used to witness C6. -/
def projC6 : Project :=
  { emptyProject with
      id := "p1", name := "ProjectOne"
    , parameters :=
        ({ count := 2
         , items := [ { name := "own", value := "1", inherited := some false }
                    , { name := "inh", value := "2", inherited := some true } ] } : Properties) }

/-- C6 witness: the theorem applied to a concrete 200 response whose body
decodes to a project with an inherited parameter. -/
theorem C6_get_strips_inherited_parameters_witness :
    ProjectService.Get ⟨200, "body"⟩ (fun _ => some projC6)
        = .ok { projC6 with parameters := projC6.parameters.NonInherited }
    ∧ ∀ i ∈ Parameters.items projC6.parameters.NonInherited, i.inherited ≠ some true :=
  C6_get_strips_inherited_parameters ⟨200, "body"⟩ (fun _ => some projC6) projC6 rfl rfl

/-- C3: the rest helper's status contract. For a body the decoder
accepts: `getWithFields` succeeds exactly on status 200; `post`, `put`
and `putTextPlain` succeed exactly on 200 or 201; `deleteByIDWithSling`
succeeds exactly on 200 or 204; and on every other status each call
returns the synthesized REST error carrying the status code, the HTTP
verb, the resource description and the raw response body. -/
theorem C3_rest_helper_status_contract {α : Type} (resp : HttpResponse)
    (dec : String → Option α) (res data : String) (v : α)
    (hdec : dec resp.body = some v) :
    ((∃ w, restHelper.getWithFields resp dec res = .ok w) ↔ resp.statusCode = 200)
    ∧ ((∃ w, restHelper.post resp dec res = .ok w)
        ↔ (resp.statusCode = 200 ∨ resp.statusCode = 201))
    ∧ ((∃ w, restHelper.put resp dec res = .ok w)
        ↔ (resp.statusCode = 200 ∨ resp.statusCode = 201))
    ∧ ((∃ s, restHelper.putTextPlain resp data res = .ok s)
        ↔ (resp.statusCode = 200 ∨ resp.statusCode = 201))
    ∧ ((restHelper.deleteByIDWithSling resp res = .ok ())
        ↔ (resp.statusCode = 200 ∨ resp.statusCode = 204))
    ∧ (resp.statusCode ≠ 200 →
        restHelper.getWithFields resp dec res
          = .error (.restError ⟨resp.statusCode, "GET", res, resp.body⟩))
    ∧ (¬ (resp.statusCode = 200 ∨ resp.statusCode = 201) →
        restHelper.post resp dec res
            = .error (.restError ⟨resp.statusCode, "POST", res, resp.body⟩)
        ∧ restHelper.put resp dec res
            = .error (.restError ⟨resp.statusCode, "PUT", res, resp.body⟩)
        ∧ restHelper.putTextPlain resp data res
            = .error (.restError ⟨resp.statusCode, "PUT", res, resp.body⟩))
    ∧ (¬ (resp.statusCode = 200 ∨ resp.statusCode = 204) →
        restHelper.deleteByIDWithSling resp res
          = .error (.restError ⟨resp.statusCode, "DELETE", res, resp.body⟩)) := by
  refine ⟨?_, ?_, ?_, ?_, ?_, ?_, ?_, ?_⟩ <;>
    by_cases h200 : resp.statusCode = 200 <;>
    by_cases h201 : resp.statusCode = 201 <;>
    by_cases h204 : resp.statusCode = 204 <;>
    simp [restHelper.getWithFields, restHelper.post, restHelper.put,
      restHelper.putTextPlain, restHelper.deleteByIDWithSling,
      restHelper.handleRestError, hdec, h200, h201, h204]

/-- C3 witness: the contract applied at a concrete 200 response with a
decoder that accepts the body. -/
theorem C3_rest_helper_status_contract_witness :
    ∃ w, restHelper.getWithFields ⟨200, "body"⟩ (fun _ => some (7 : Nat))
      "project" = .ok w :=
  ((C3_rest_helper_status_contract ⟨200, "body"⟩ (fun _ => some (7 : Nat))
      "project" "payload" 7 rfl).1).mpr rfl

/-- Helper: the final refresh Get of `updateProject`, when it succeeds,
leaves the write trace unchanged and returns the refreshed project. -/
theorem finalStage_ok (env : UpdateEnv) (dec : Decoders) (w : List HttpWrite)
    (outF : Project)
    (hfin : ProjectService.Get env.getFinalResp dec.project = .ok outF) :
    ProjectService.finalStage env dec w = (w, .ok (some outF)) := by
  simp [ProjectService.finalStage, hfin]

/-- Helper: the parameters block, when its PUT succeeds, appends the
parameters write exactly when the desired collection is non-empty. -/
theorem paramsStage_ok (env : UpdateEnv) (dec : Decoders) (p : Project)
    (w : List HttpWrite) (ps0 : Parameters) (outF : Project)
    (hput : restHelper.put env.parametersResp dec.params "project parameters" = .ok ps0)
    (hfin : ProjectService.Get env.getFinalResp dec.project = .ok outF) :
    ProjectService.paramsStage env dec p w =
      (w ++ (if Parameters.count p.parameters > 0
             then [HttpWrite.putParameters p.parameters] else []),
       .ok (some outF)) := by
  unfold ProjectService.paramsStage
  by_cases hc : Parameters.count p.parameters > 0
  · simp [hc, hput, finalStage_ok env dec _ outF hfin]
  · simp [hc, finalStage_ok env dec _ outF hfin]

/-- Helper: the parent block on a non-create run, when its PUT succeeds,
appends the parent write exactly when a parent is desired and the
current parent id differs. -/
theorem parentStage_ok (env : UpdateEnv) (dec : Decoders) (p current : Project)
    (w : List HttpWrite) (r : ProjectReference) (ps0 : Parameters) (outF : Project)
    (hput : restHelper.put env.parentResp dec.ref "parent project" = .ok r)
    (hparams : restHelper.put env.parametersResp dec.params "project parameters" = .ok ps0)
    (hfin : ProjectService.Get env.getFinalResp dec.project = .ok outF) :
    ProjectService.parentStage env dec p false current w =
      (w ++ (if (p.parentProjectID ≠ "" ∨ p.parentProject ≠ none) ∧
                current.parentProjectID ≠ p.parentProjectID
             then [HttpWrite.putParentProject p.parentProject] else [])
         ++ (if Parameters.count p.parameters > 0
             then [HttpWrite.putParameters p.parameters] else []),
       .ok (some outF)) := by
  unfold ProjectService.parentStage
  by_cases hc : (p.parentProjectID ≠ "" ∨ p.parentProject ≠ none) ∧
      current.parentProjectID ≠ p.parentProjectID
  · simp [hc, hput, paramsStage_ok env dec p _ ps0 outF hparams hfin]
  · simp [hc, paramsStage_ok env dec p _ ps0 outF hparams hfin]

/-- Helper: the id block, when its PUT succeeds, appends the id write
exactly when the current id differs. -/
theorem idStage_ok (env : UpdateEnv) (dec : Decoders) (p current : Project)
    (w : List HttpWrite) (r : ProjectReference) (ps0 : Parameters) (outF : Project)
    (hid : ProjectService.updateStringField env.idResp p.id "project id" = .ok ())
    (hput : restHelper.put env.parentResp dec.ref "parent project" = .ok r)
    (hparams : restHelper.put env.parametersResp dec.params "project parameters" = .ok ps0)
    (hfin : ProjectService.Get env.getFinalResp dec.project = .ok outF) :
    ProjectService.idStage env dec p false current w =
      (w ++ (if current.id ≠ p.id then [HttpWrite.putID p.id] else [])
         ++ (if (p.parentProjectID ≠ "" ∨ p.parentProject ≠ none) ∧
                current.parentProjectID ≠ p.parentProjectID
             then [HttpWrite.putParentProject p.parentProject] else [])
         ++ (if Parameters.count p.parameters > 0
             then [HttpWrite.putParameters p.parameters] else []),
       .ok (some outF)) := by
  unfold ProjectService.idStage
  by_cases hc : current.id ≠ p.id
  · simp [hc, hid, parentStage_ok env dec p current _ r ps0 outF hput hparams hfin]
  · simp [hc, parentStage_ok env dec p current _ r ps0 outF hput hparams hfin]

/-- Helper: the description block, when its PUT succeeds, appends the
description write exactly when the current description differs. -/
theorem descriptionStage_ok (env : UpdateEnv) (dec : Decoders) (p current : Project)
    (w : List HttpWrite) (r : ProjectReference) (ps0 : Parameters) (outF : Project)
    (hdesc : ProjectService.updateStringField env.descriptionResp p.description
        "project description" = .ok ())
    (hid : ProjectService.updateStringField env.idResp p.id "project id" = .ok ())
    (hput : restHelper.put env.parentResp dec.ref "parent project" = .ok r)
    (hparams : restHelper.put env.parametersResp dec.params "project parameters" = .ok ps0)
    (hfin : ProjectService.Get env.getFinalResp dec.project = .ok outF) :
    ProjectService.descriptionStage env dec p false current w =
      (w ++ (if current.description ≠ p.description
             then [HttpWrite.putDescription p.description] else [])
         ++ (if current.id ≠ p.id then [HttpWrite.putID p.id] else [])
         ++ (if (p.parentProjectID ≠ "" ∨ p.parentProject ≠ none) ∧
                current.parentProjectID ≠ p.parentProjectID
             then [HttpWrite.putParentProject p.parentProject] else [])
         ++ (if Parameters.count p.parameters > 0
             then [HttpWrite.putParameters p.parameters] else []),
       .ok (some outF)) := by
  unfold ProjectService.descriptionStage
  by_cases hc : current.description ≠ p.description
  · simp [hc, hdesc, idStage_ok env dec p current _ r ps0 outF hid hput hparams hfin]
  · simp [hc, idStage_ok env dec p current _ r ps0 outF hid hput hparams hfin]

/-- Helper: the name block, when its PUT succeeds, appends the name
write exactly when the current name differs. -/
theorem nameStage_ok (env : UpdateEnv) (dec : Decoders) (p current : Project)
    (w : List HttpWrite) (r : ProjectReference) (ps0 : Parameters) (outF : Project)
    (hname : ProjectService.updateStringField env.nameResp p.name "project name" = .ok ())
    (hdesc : ProjectService.updateStringField env.descriptionResp p.description
        "project description" = .ok ())
    (hid : ProjectService.updateStringField env.idResp p.id "project id" = .ok ())
    (hput : restHelper.put env.parentResp dec.ref "parent project" = .ok r)
    (hparams : restHelper.put env.parametersResp dec.params "project parameters" = .ok ps0)
    (hfin : ProjectService.Get env.getFinalResp dec.project = .ok outF) :
    ProjectService.nameStage env dec p false current w =
      (w ++ (if current.name ≠ p.name then [HttpWrite.putName p.name] else [])
         ++ (if current.description ≠ p.description
             then [HttpWrite.putDescription p.description] else [])
         ++ (if current.id ≠ p.id then [HttpWrite.putID p.id] else [])
         ++ (if (p.parentProjectID ≠ "" ∨ p.parentProject ≠ none) ∧
                current.parentProjectID ≠ p.parentProjectID
             then [HttpWrite.putParentProject p.parentProject] else [])
         ++ (if Parameters.count p.parameters > 0
             then [HttpWrite.putParameters p.parameters] else []),
       .ok (some outF)) := by
  unfold ProjectService.nameStage
  by_cases hc : current.name ≠ p.name
  · simp [hc, hname,
      descriptionStage_ok env dec p current _ r ps0 outF hdesc hid hput hparams hfin]
  · simp [hc,
      descriptionStage_ok env dec p current _ r ps0 outF hdesc hid hput hparams hfin]

/-- C1 (amended): on an `Update` run in which every call succeeds, the
write trace is exactly: a name, description and id PUT each issued iff
the current server value differs, a parent PUT issued iff a parent is
desired and the current parent id differs, and a parameters PUT issued
iff the desired parameter collection is non-empty - the parameters PUT
is not conditioned on the current server state. Consequently an Update
whose desired values equal the current server state issues no write
exactly when its parameter collection is empty. -/
theorem C1_update_issues_writes_only_for_changes
    (env : UpdateEnv) (dec : Decoders) (p current : Project)
    (r : ProjectReference) (ps0 : Parameters) (outF : Project)
    (hget : ProjectService.Get env.getCurrentResp dec.project = .ok current)
    (hname : ProjectService.updateStringField env.nameResp p.name "project name" = .ok ())
    (hdesc : ProjectService.updateStringField env.descriptionResp p.description
        "project description" = .ok ())
    (hid : ProjectService.updateStringField env.idResp p.id "project id" = .ok ())
    (hput : restHelper.put env.parentResp dec.ref "parent project" = .ok r)
    (hparams : restHelper.put env.parametersResp dec.params "project parameters" = .ok ps0)
    (hfin : ProjectService.Get env.getFinalResp dec.project = .ok outF) :
    ProjectService.Update env dec p =
      ((if current.name ≠ p.name then [HttpWrite.putName p.name] else [])
         ++ (if current.description ≠ p.description
             then [HttpWrite.putDescription p.description] else [])
         ++ (if current.id ≠ p.id then [HttpWrite.putID p.id] else [])
         ++ (if (p.parentProjectID ≠ "" ∨ p.parentProject ≠ none) ∧
                current.parentProjectID ≠ p.parentProjectID
             then [HttpWrite.putParentProject p.parentProject] else [])
         ++ (if Parameters.count p.parameters > 0
             then [HttpWrite.putParameters p.parameters] else []),
       .ok (some outF))
    ∧ (current = p → Parameters.count p.parameters = 0 →
        (ProjectService.Update env dec p).1 = []) := by
  have hmain : ProjectService.Update env dec p =
      ((if current.name ≠ p.name then [HttpWrite.putName p.name] else [])
         ++ (if current.description ≠ p.description
             then [HttpWrite.putDescription p.description] else [])
         ++ (if current.id ≠ p.id then [HttpWrite.putID p.id] else [])
         ++ (if (p.parentProjectID ≠ "" ∨ p.parentProject ≠ none) ∧
                current.parentProjectID ≠ p.parentProjectID
             then [HttpWrite.putParentProject p.parentProject] else [])
         ++ (if Parameters.count p.parameters > 0
             then [HttpWrite.putParameters p.parameters] else []),
       .ok (some outF)) := by
    unfold ProjectService.Update ProjectService.updateProject
    rw [hget]
    show ProjectService.nameStage env dec p false current [] = _
    rw [nameStage_ok env dec p current [] r ps0 outF hname hdesc hid hput hparams hfin]
    simp
  refine ⟨hmain, ?_⟩
  intro hcur hcount
  rw [hmain]
  subst hcur
  simp [hcount]

/-- The desired project of the C1 counterexample: one own parameter, so
the parameter collection is non-empty. -/
def pC1 : Project :=
  { emptyProject with
      id := "p1", name := "ProjOne"
    , parameters := ({ count := 1, items := [NewProperty "k" "v"] } : Properties) }

/-- Decoders for the C1 counterexample: the server always answers with
exactly the desired project. -/
def decC1 : Decoders :=
  { project := fun _ => some pC1
  , ref := fun _ => some emptyProjectReference
  , params := fun _ => some NewParametersEmpty }

/-- Responses for the C1 counterexample: every call succeeds with 200. -/
def envC1 : UpdateEnv :=
  { getCurrentResp := ⟨200, "cur"⟩, nameResp := ⟨200, ""⟩
  , descriptionResp := ⟨200, ""⟩, idResp := ⟨200, ""⟩
  , parentResp := ⟨200, ""⟩, parametersResp := ⟨200, ""⟩
  , getFinalResp := ⟨200, "cur"⟩ }

/-- C1 counterexample: the current server state equals the desired
project exactly, yet `Update` still issues a write - the parameters PUT
- so re-invoking Update with identical values is not write-free. -/
theorem C1_counterexample :
    ProjectService.Get envC1.getCurrentResp decC1.project = .ok pC1
    ∧ (ProjectService.Update envC1 decC1 pC1).1
        = [HttpWrite.putParameters pC1.parameters]
    ∧ (ProjectService.Update envC1 decC1 pC1).1 ≠ [] := by
  refine ⟨rfl, rfl, by decide⟩

/-- C1 witness: the amended characterization applied to a concrete run
in which only the description differs and the parameter collection is
empty, yielding exactly one description write. -/
theorem C1_update_issues_writes_only_for_changes_witness :
    ProjectService.Update
        { getCurrentResp := ⟨200, "cur"⟩, nameResp := ⟨200, ""⟩
        , descriptionResp := ⟨200, ""⟩, idResp := ⟨200, ""⟩
        , parentResp := ⟨200, ""⟩, parametersResp := ⟨200, ""⟩
        , getFinalResp := ⟨200, "cur"⟩ }
        { project := fun _ => some emptyProject
        , ref := fun _ => some emptyProjectReference
        , params := fun _ => some NewParametersEmpty }
        { emptyProject with description := "new words" } =
      ((if emptyProject.name ≠ ({ emptyProject with description := "new words" } : Project).name
          then [HttpWrite.putName ({ emptyProject with description := "new words" } : Project).name] else [])
        ++ (if emptyProject.description ≠ ({ emptyProject with description := "new words" } : Project).description
            then [HttpWrite.putDescription "new words"] else [])
        ++ (if emptyProject.id ≠ ({ emptyProject with description := "new words" } : Project).id
            then [HttpWrite.putID ({ emptyProject with description := "new words" } : Project).id] else [])
        ++ (if (({ emptyProject with description := "new words" } : Project).parentProjectID ≠ ""
                ∨ ({ emptyProject with description := "new words" } : Project).parentProject ≠ none) ∧
               emptyProject.parentProjectID ≠ ({ emptyProject with description := "new words" } : Project).parentProjectID
            then [HttpWrite.putParentProject ({ emptyProject with description := "new words" } : Project).parentProject] else [])
        ++ (if Parameters.count ({ emptyProject with description := "new words" } : Project).parameters > 0
            then [HttpWrite.putParameters ({ emptyProject with description := "new words" } : Project).parameters] else []),
       .ok (some emptyProject))
    ∧ (emptyProject = { emptyProject with description := "new words" } →
        Parameters.count ({ emptyProject with description := "new words" } : Project).parameters = 0 →
        (ProjectService.Update
          { getCurrentResp := ⟨200, "cur"⟩, nameResp := ⟨200, ""⟩
          , descriptionResp := ⟨200, ""⟩, idResp := ⟨200, ""⟩
          , parentResp := ⟨200, ""⟩, parametersResp := ⟨200, ""⟩
          , getFinalResp := ⟨200, "cur"⟩ }
          { project := fun _ => some emptyProject
          , ref := fun _ => some emptyProjectReference
          , params := fun _ => some NewParametersEmpty }
          { emptyProject with description := "new words" }).1 = []) :=
  C1_update_issues_writes_only_for_changes
    { getCurrentResp := ⟨200, "cur"⟩, nameResp := ⟨200, ""⟩
    , descriptionResp := ⟨200, ""⟩, idResp := ⟨200, ""⟩
    , parentResp := ⟨200, ""⟩, parametersResp := ⟨200, ""⟩
    , getFinalResp := ⟨200, "cur"⟩ }
    { project := fun _ => some emptyProject
    , ref := fun _ => some emptyProjectReference
    , params := fun _ => some NewParametersEmpty }
    { emptyProject with description := "new words" } emptyProject
    emptyProjectReference NewParametersEmpty emptyProject
    rfl rfl rfl rfl rfl rfl rfl

/-- The desired parent reference of the C2 run. -/
def refC2 : ProjectReference := { emptyProjectReference with id := "newParent" }

/-- The desired project of the C2 run: it asks for parent "newParent". -/
def pC2 : Project :=
  { emptyProject with
      id := "p2", name := "ProjTwo"
    , parentProject := some refC2, parentProjectID := "newParent" }

/-- The current server state of the C2 run: same fields but parent
"oldParent", so the parent-project PUT is issued. -/
def curC2 : Project :=
  { pC2 with
      parentProjectID := "oldParent"
    , parentProject := some { emptyProjectReference with id := "oldParent" } }

/-- Decoders for the C2 run. -/
def decC2 : Decoders :=
  { project := fun _ => some curC2
  , ref := fun _ => some emptyProjectReference
  , params := fun _ => some NewParametersEmpty }

/-- Responses for the C2 run: every call succeeds except the
parent-project PUT, which fails with status 500. -/
def envC2 : UpdateEnv :=
  { getCurrentResp := ⟨200, "cur"⟩, nameResp := ⟨200, ""⟩
  , descriptionResp := ⟨200, ""⟩, idResp := ⟨200, ""⟩
  , parentResp := ⟨500, "Internal Server Error"⟩
  , parametersResp := ⟨200, ""⟩, getFinalResp := ⟨200, "cur"⟩ }

/-- C2: on the concrete run in which the parent-project PUT fails with
status 500, that PUT does produce a synthesized error, yet `Update`
returns neither a project nor an error - the Go `(nil, nil)` return -
so the error is swallowed rather than returned to the caller. -/
theorem C2_parent_put_failure_swallowed :
    restHelper.put envC2.parentResp decC2.ref "parent project"
        = .error (.restError ⟨500, "PUT", "parent project", "Internal Server Error"⟩)
    ∧ ProjectService.Update envC2 decC2 pC2
        = ([HttpWrite.putParentProject (some refC2)], .ok none) :=
  ⟨rfl, rfl⟩

/-- C7: when an earlier field PUT succeeded (here the name PUT) and a
later step fails (here the parameters PUT), the trace keeps the earlier
write - no compensating request exists in the write vocabulary at all -
and the returned error names only the failing step: its resource
description is "project parameters" and it carries that response's
status and body. -/
theorem C7_no_rollback_on_partial_failure
    (env : UpdateEnv) (dec : Decoders) (p current : Project)
    (hget : ProjectService.Get env.getCurrentResp dec.project = .ok current)
    (hnd : current.name ≠ p.name)
    (hn : ProjectService.updateStringField env.nameResp p.name "project name" = .ok ())
    (hde : current.description = p.description)
    (hie : current.id = p.id)
    (hpe : current.parentProjectID = p.parentProjectID)
    (hcnt : Parameters.count p.parameters > 0)
    (hfail : ¬ (env.parametersResp.statusCode = 201 ∨ env.parametersResp.statusCode = 200)) :
    ProjectService.Update env dec p =
      ([HttpWrite.putName p.name, HttpWrite.putParameters p.parameters],
       .error (.restError ⟨env.parametersResp.statusCode, "PUT",
         "project parameters", env.parametersResp.body⟩)) := by
  unfold ProjectService.Update ProjectService.updateProject
  rw [hget]
  show ProjectService.nameStage env dec p false current [] = _
  simp [ProjectService.nameStage, ProjectService.descriptionStage,
    ProjectService.idStage, ProjectService.parentStage, ProjectService.paramsStage,
    restHelper.put, restHelper.handleRestError,
    hnd, hn, hde, hie, hpe, hcnt, hfail]

/-- The desired project of the C7 witness run: renamed, one parameter. -/
def pC7 : Project :=
  { emptyProject with
      id := "p7", name := "NewName"
    , parameters := ({ count := 1, items := [NewProperty "k" "v"] } : Properties) }

/-- The current server state of the C7 witness run: old name. -/
def curC7 : Project := { pC7 with name := "OldName", parameters := NewParametersEmpty }

/-- Decoders for the C7 witness run. -/
def decC7 : Decoders :=
  { project := fun _ => some curC7
  , ref := fun _ => some emptyProjectReference
  , params := fun _ => some NewParametersEmpty }

/-- Responses for the C7 witness run: all succeed except the parameters
PUT, which fails with status 500. -/
def envC7 : UpdateEnv :=
  { getCurrentResp := ⟨200, "cur"⟩, nameResp := ⟨200, ""⟩
  , descriptionResp := ⟨200, ""⟩, idResp := ⟨200, ""⟩
  , parentResp := ⟨200, ""⟩, parametersResp := ⟨500, "boom"⟩
  , getFinalResp := ⟨200, "cur"⟩ }

/-- C7 witness: the theorem applied to the concrete run in which the
name PUT succeeds and the parameters PUT then fails. -/
theorem C7_no_rollback_on_partial_failure_witness :
    ProjectService.Update envC7 decC7 pC7 =
      ([HttpWrite.putName pC7.name, HttpWrite.putParameters pC7.parameters],
       .error (.restError ⟨envC7.parametersResp.statusCode, "PUT",
         "project parameters", envC7.parametersResp.body⟩)) :=
  C7_no_rollback_on_partial_failure envC7 decC7 pC7 curC7
    rfl (by decide) rfl rfl rfl rfl (by decide) (by decide)

/-- C5: `NewProject` fails exactly on an empty name (client-side, before
any HTTP request exists to be issued), and on a successful creation POST
`Create` overwrites the input's id with the server-assigned one and then
performs the full reconciliation `updateProject` run, whose trace and
outcome it returns after the creation POST. -/
theorem C5_create_validates_then_reconciles
    (n d pid : String) (env : CreateEnv) (dec : Decoders) (p created : Project)
    (hpost : restHelper.post env.postResp dec.project "project" = .ok created) :
    ((∃ q, NewProject n d pid = .ok q) ↔ n ≠ "")
    ∧ ProjectService.Create env dec p
        = ({ p with id := created.id },
           HttpWrite.postProject ::
             (ProjectService.updateProject env.update dec { p with id := created.id } true).1,
           (ProjectService.updateProject env.update dec { p with id := created.id } true).2) := by
  constructor
  · by_cases hn : n = "" <;> simp [NewProject, hn]
  · simp [ProjectService.Create, hpost]

/-- The server-assigned creation result used by the C5 and C9 witnesses. -/
def createdSrv : Project := { emptyProject with id := "srv_123" }

/-- Decoders for the C5 witness run: the POST body decodes to the
server-assigned project. -/
def decC5 : Decoders :=
  { project := fun _ => some createdSrv
  , ref := fun _ => some emptyProjectReference
  , params := fun _ => some NewParametersEmpty }

/-- Responses for the C5 witness run: creation POST succeeds with 200,
and the follow-up update's calls succeed too. -/
def envC5 : CreateEnv :=
  { postResp := ⟨200, "created"⟩
  , update :=
      { getCurrentResp := ⟨200, "cur"⟩, nameResp := ⟨200, ""⟩
      , descriptionResp := ⟨200, ""⟩, idResp := ⟨200, ""⟩
      , parentResp := ⟨200, ""⟩, parametersResp := ⟨200, ""⟩
      , getFinalResp := ⟨200, "cur"⟩ } }

/-- The input project of the C5 witness run. -/
def pC5 : Project := { emptyProject with name := "Proj" }

/-- C5 witness: the theorem applied at a concrete successful POST. -/
theorem C5_create_validates_then_reconciles_witness :
    ((∃ q, NewProject "Proj" "words" "" = .ok q) ↔ "Proj" ≠ "")
    ∧ ProjectService.Create envC5 decC5 pC5
        = ({ pC5 with id := createdSrv.id },
           HttpWrite.postProject ::
             (ProjectService.updateProject envC5.update decC5 { pC5 with id := createdSrv.id } true).1,
           (ProjectService.updateProject envC5.update decC5 { pC5 with id := createdSrv.id } true).2) :=
  C5_create_validates_then_reconciles "Proj" "words" "" envC5 decC5 pC5 createdSrv rfl

/-- C9: whenever the creation POST succeeds, `Create` overwrites the
caller's project value in place, setting its id to the server-assigned
one - independently of whether the rest of the call then fails. -/
theorem C9_create_overwrites_input_id (env : CreateEnv) (dec : Decoders)
    (p created : Project)
    (hpost : restHelper.post env.postResp dec.project "project" = .ok created) :
    (ProjectService.Create env dec p).1 = { p with id := created.id } := by
  simp [ProjectService.Create, hpost]

/-- Decoders for the C9 witness run. -/
def decC9 : Decoders :=
  { project := fun _ => some createdSrv
  , ref := fun _ => some emptyProjectReference
  , params := fun _ => some NewParametersEmpty }

/-- Responses for the C9 witness run: the creation POST succeeds but the
follow-up update's initial Get fails with 404, so `Create` returns an
error - yet the caller's project id is already overwritten. -/
def envC9 : CreateEnv :=
  { postResp := ⟨200, "created"⟩
  , update :=
      { getCurrentResp := ⟨404, "nf"⟩, nameResp := ⟨200, ""⟩
      , descriptionResp := ⟨200, ""⟩, idResp := ⟨200, ""⟩
      , parentResp := ⟨200, ""⟩, parametersResp := ⟨200, ""⟩
      , getFinalResp := ⟨200, "cur"⟩ } }

/-- The input project of the C9 witness run. -/
def pC9 : Project := { emptyProject with name := "ProjNine" }

/-- C9 witness: on the concrete run the overall call returns an error,
and the caller's project value still carries the server-assigned id. -/
theorem C9_create_overwrites_input_id_witness :
    (ProjectService.Create envC9 decC9 pC9).1 = { pC9 with id := createdSrv.id }
    ∧ (ProjectService.Create envC9 decC9 pC9).2.2
        = .error (.restError ⟨404, "GET", "project", "nf"⟩) :=
  ⟨C9_create_overwrites_input_id envC9 decC9 pC9 createdSrv rfl, rfl⟩
